import Mathlib

set_option maxRecDepth 10000

/-!
Shallow embedding of the Trust-x I2C platform abstraction layer
(src/efr32mg_SiLabs/pal_i2c.c, including its pal_os_lock section) and of
the platform configuration table (the unnamed configuration source file).

Modelling conventions:
  - machine integers are Nat with explicit reductions modulo 2 ^ w where a
    store into a fixed-width field occurs;
  - nullable C pointers are Option values; dereferencing a null pointer is
    surfaced as an Except.error carrying which pointer was null;
  - the external peripheral primitive I2CSPM_Transfer is an oracle
    function parameter (its int result drives the branches of the code);
  - the upper layer event handler is recorded as a Bool field stating
    whether the function pointer is non-null, and the list of events the
    handler was invoked with is returned explicitly;
  - the FreeRTOS semaphore is a state value (Option Nat: none is the null
    handle, some c a created binary semaphore holding c tokens, c at most 1).
-/

namespace TrustX

/-- Return status values of the PAL (PAL_STATUS_SUCCESS, PAL_STATUS_FAILURE,
PAL_STATUS_I2C_BUSY). -/
inductive pal_status where
  | success
  | failure
  | i2c_busy
  deriving DecidableEq

/-- Events passed to the upper layer handler (PAL_I2C_EVENT_SUCCESS,
PAL_I2C_EVENT_ERROR, PAL_I2C_EVENT_BUSY). -/
inductive pal_i2c_event where
  | success
  | error
  | busy
  deriving DecidableEq

/-- Which null pointer was dereferenced on an undefined-behavior path. -/
inductive NullDeref where
  | ctxNull
  | handlerNull
  deriving DecidableEq

/-- The i2c_ctx_t hardware configuration struct of pal_i2c.c (lines 55-58):
a pointer to the SL i2cspm peripheral (Option Nat, none meaning NULL) and a
bit rate. -/
structure i2c_ctx_t where
  sl_i2cspm_sensor : Option Nat
  p_bitrate : Nat
  deriving DecidableEq

/-- The pal_i2c_t context handed to every PAL call: hardware configuration,
slave address, opaque upper layer context pointer, and the upper layer event
handler function pointer, recorded here as the Bool stating whether it is
non-null. -/
structure pal_i2c_t where
  p_i2c_hw_config : i2c_ctx_t
  slave_address : Nat
  upper_layer_ctx : Nat
  upper_layer_event_handler : Bool
  deriving DecidableEq

/-- The I2C_TransferSeq_TypeDef descriptor built by write and read: 16-bit
wire address, direction flags, and two (data, length) buffer slots, the
second always left empty by this code. -/
structure I2C_TransferSeq_TypeDef where
  addr : Nat
  flags : Nat
  buf0_data : Nat
  buf0_len : Nat
  buf1_len : Nat
  deriving DecidableEq

/-- Direction flag used by pal_i2c_write (emlib value 0x0001). -/
def I2C_FLAG_WRITE : Nat := 1

/-- Direction flag used by pal_i2c_read (emlib value 0x0002). -/
def I2C_FLAG_READ : Nat := 2

/-- pal_i2c_acquire (pal_i2c.c lines 65-79): state-passing form over the
g_entry_count counter. Returns PAL_STATUS_FAILURE for a null context; when
the counter is 0 it is incremented (uint32 arithmetic) and, the increment
having produced 1, PAL_STATUS_SUCCESS is returned; in every other case
PAL_STATUS_FAILURE. -/
def pal_i2c_acquire (p_i2c_context : Option pal_i2c_t) (g_entry_count : Nat) :
    pal_status × Nat :=
  match p_i2c_context with
  | none => (.failure, g_entry_count)
  | some _ =>
    if g_entry_count = 0 then
      let g1 := (g_entry_count + 1) % 4294967296
      if g1 = 1 then (.success, g1) else (.failure, g1)
    else (.failure, g_entry_count)

/-- pal_i2c_release (pal_i2c.c lines 83-88): a no-op for a null context,
otherwise unconditionally stores 0 into g_entry_count. -/
def pal_i2c_release (p_i2c_context : Option pal_i2c_t) (g_entry_count : Nat) :
    Nat :=
  match p_i2c_context with
  | none => g_entry_count
  | some _ => 0

/-- pal_i2c_init (pal_i2c.c lines 116-124): dereferences the context to read
its hardware configuration (error on a null context), then returns
PAL_STATUS_FAILURE when the sl_i2cspm_sensor handle is NULL and
PAL_STATUS_SUCCESS otherwise. The function touches no state. -/
def pal_i2c_init (p_i2c_context : Option pal_i2c_t) :
    Except NullDeref pal_status :=
  match p_i2c_context with
  | none => .error .ctxNull
  | some ctx =>
    if ctx.p_i2c_hw_config.sl_i2cspm_sensor = none then .ok .failure
    else .ok .success

/-- pal_i2c_deinit (pal_i2c.c lines 148-155): PAL_STATUS_FAILURE for a null
context, PAL_STATUS_SUCCESS otherwise. -/
def pal_i2c_deinit (p_i2c_context : Option pal_i2c_t) : pal_status :=
  match p_i2c_context with
  | none => .failure
  | some _ => .success

/-- pal_i2c_write (pal_i2c.c lines 189-238). The first statement fetches the
upper layer event handler through the context pointer, so a null context is
a null dereference before any validation. Then: acquire the bus; when
acquired, build the write descriptor (address shifted left one bit into the
16-bit field, I2C_FLAG_WRITE, one buffer of the given length), call the
transfer oracle, invoke the handler with SUCCESS or ERROR according to the
int result being 0, set the matching status, and release the bus; when not
acquired, invoke the handler with BUSY and return PAL_STATUS_I2C_BUSY.
Invoking a null handler is a null dereference. The returned triple is
(status, events the handler was invoked with, final g_entry_count). -/
def pal_i2c_write (I2CSPM_Transfer : Option Nat → I2C_TransferSeq_TypeDef → Int)
    (g_entry_count : Nat) (p_i2c_context : Option pal_i2c_t)
    (p_data : Nat) (length : Nat) :
    Except NullDeref (pal_status × List pal_i2c_event × Nat) :=
  match p_i2c_context with
  | none => .error .ctxNull
  | some ctx =>
    let acq := pal_i2c_acquire (some ctx) g_entry_count
    if acq.1 = .success then
      let seq : I2C_TransferSeq_TypeDef :=
        { addr := (ctx.slave_address <<< 1) % 65536
          flags := I2C_FLAG_WRITE
          buf0_data := p_data
          buf0_len := length % 65536
          buf1_len := 0 }
      let i2c_result := I2CSPM_Transfer ctx.p_i2c_hw_config.sl_i2cspm_sensor seq
      if ctx.upper_layer_event_handler then
        if i2c_result = 0 then
          .ok (.success, [.success], pal_i2c_release (some ctx) acq.2)
        else
          .ok (.failure, [.error], pal_i2c_release (some ctx) acq.2)
      else .error .handlerNull
    else
      if ctx.upper_layer_event_handler then
        .ok (.i2c_busy, [.busy], acq.2)
      else .error .handlerNull

/-- pal_i2c_read (pal_i2c.c lines 271-317): identical control flow to
pal_i2c_write with a read-direction descriptor. -/
def pal_i2c_read (I2CSPM_Transfer : Option Nat → I2C_TransferSeq_TypeDef → Int)
    (g_entry_count : Nat) (p_i2c_context : Option pal_i2c_t)
    (p_data : Nat) (length : Nat) :
    Except NullDeref (pal_status × List pal_i2c_event × Nat) :=
  match p_i2c_context with
  | none => .error .ctxNull
  | some ctx =>
    let acq := pal_i2c_acquire (some ctx) g_entry_count
    if acq.1 = .success then
      let seq : I2C_TransferSeq_TypeDef :=
        { addr := (ctx.slave_address <<< 1) % 65536
          flags := I2C_FLAG_READ
          buf0_data := p_data
          buf0_len := length % 65536
          buf1_len := 0 }
      let result := I2CSPM_Transfer ctx.p_i2c_hw_config.sl_i2cspm_sensor seq
      if ctx.upper_layer_event_handler then
        if result = 0 then
          .ok (.success, [.success], pal_i2c_release (some ctx) acq.2)
        else
          .ok (.failure, [.error], pal_i2c_release (some ctx) acq.2)
      else .error .handlerNull
    else
      if ctx.upper_layer_event_handler then
        .ok (.i2c_busy, [.busy], acq.2)
      else .error .handlerNull

/-- pal_i2c_set_bitrate (pal_i2c.c lines 347-352): runtime configuration
changes are not supported, the call always reports success. -/
def pal_i2c_set_bitrate (p_i2c_context : Option pal_i2c_t) (bitrate : Nat) :
    pal_status :=
  .success

/-- The operations that touch g_entry_count, for stating the bus counter
invariant over arbitrary call sequences. -/
inductive PalOp where
  | acquire (ctx : Option pal_i2c_t)
  | release (ctx : Option pal_i2c_t)
  | write (ctx : Option pal_i2c_t) (p_data : Nat) (length : Nat)
  | read (ctx : Option pal_i2c_t) (p_data : Nat) (length : Nat)

/-- Effect of one PAL call on g_entry_count; none when the call runs into a
null dereference. -/
def PalOp.run (I2CSPM_Transfer : Option Nat → I2C_TransferSeq_TypeDef → Int)
    (op : PalOp) (g : Nat) : Option Nat :=
  match op with
  | .acquire ctx => some (pal_i2c_acquire ctx g).2
  | .release ctx => some (pal_i2c_release ctx g)
  | .write ctx d l =>
    match pal_i2c_write I2CSPM_Transfer g ctx d l with
    | .ok out => some out.2.2
    | .error _ => none
  | .read ctx d l =>
    match pal_i2c_read I2CSPM_Transfer g ctx d l with
    | .ok out => some out.2.2
    | .error _ => none

/-- Runs a sequence of PAL calls, threading g_entry_count. -/
def runOps (I2CSPM_Transfer : Option Nat → I2C_TransferSeq_TypeDef → Int)
    (ops : List PalOp) (g : Nat) : Option Nat :=
  match ops with
  | [] => some g
  | op :: rest =>
    match op.run I2CSPM_Transfer g with
    | none => none
    | some g1 => runOps I2CSPM_Transfer rest g1

/-- The i2c_ctx configuration instance of the platform configuration file:
the SL_I2CSPM_SENSOR_PERIPHERAL handle (a fixed non-null pointer, modelled
as some 0) and the 100 kHz speed mode. -/
def i2c_ctx : i2c_ctx_t :=
  { sl_i2cspm_sensor := some 0, p_bitrate := 100000 }

/-- The optiga_pal_i2c_context_0 instance of the platform configuration
file: hardware context i2c_ctx, slave address 0x30, NULL upper layer
context and NULL event handler. -/
def optiga_pal_i2c_context_0 : pal_i2c_t :=
  { p_i2c_hw_config := i2c_ctx
    slave_address := 48
    upper_layer_ctx := 0
    upper_layer_event_handler := false }

/-- A context with a non-null event handler, used as a concrete input. -/
def ctx_with_handler : pal_i2c_t :=
  { p_i2c_hw_config := i2c_ctx
    slave_address := 48
    upper_layer_ctx := 0
    upper_layer_event_handler := true }

/-- State of the pal_os_lock section of pal_i2c.c: the global semaphore
handle xLockSemaphoreHandle (none is the null handle a C global starts at,
some c a created binary semaphore holding c tokens), the one-time flag
first_call_flag, and a ghost count of xSemaphoreCreateBinary calls. -/
structure LockState where
  xLockSemaphoreHandle : Option Nat
  first_call_flag : Bool
  creations : Nat
  deriving DecidableEq

/-- The state the lock globals start in: null handle, first_call_flag = 1,
no semaphore created yet. -/
def initialLockState : LockState :=
  { xLockSemaphoreHandle := none, first_call_flag := true, creations := 0 }

/-- xSemaphoreGive on a handle value: on the null handle there is no
semaphore to update; on a binary semaphore the token count rises, capped
at 1. -/
def xSemaphoreGive (h : Option Nat) : Option Nat :=
  match h with
  | none => none
  | some c => some (min (c + 1) 1)

/-- pal_os_lock_release (lines 462-465): calls xSemaphoreGive on the
current handle, with no initialization check of its own. The second
component records the handle value that was passed to xSemaphoreGive, so
that a give through the null handle is observable. -/
def pal_os_lock_release (s : LockState) : LockState × Option Nat :=
  ({ s with xLockSemaphoreHandle := xSemaphoreGive s.xLockSemaphoreHandle },
   s.xLockSemaphoreHandle)

/-- The _lock_init helper (lines 438-442): xSemaphoreCreateBinary creates
the semaphore empty (some 0), then pal_os_lock_release gives it once. -/
def _lock_init (s : LockState) : LockState :=
  let s1 : LockState :=
    { s with xLockSemaphoreHandle := some 0, creations := s.creations + 1 }
  (pal_os_lock_release s1).1

/-- pal_os_lock_acquire (lines 444-460), sequential form. Inside the
critical section the one-time check runs _lock_init and clears
first_call_flag on the first call. Then xSemaphoreTake with portMAX_DELAY
is modelled by the takeOk oracle: when it reports pdTRUE a token is
consumed and PAL_STATUS_SUCCESS returned, otherwise the state is left as it
stands after the critical section and PAL_STATUS_FAILURE returned. -/
def pal_os_lock_acquire (s : LockState) (takeOk : Bool) :
    pal_status × LockState :=
  let s1 :=
    if s.first_call_flag then
      { _lock_init s with first_call_flag := false }
    else s
  if takeOk then
    (.success,
     { s1 with xLockSemaphoreHandle := s1.xLockSemaphoreHandle.map (· - 1) })
  else (.failure, s1)

/-- State of two tasks racing through their first pal_os_lock_acquire (each
followed by pal_os_lock_release, the usual pairing under which the waiter
is eventually let through). pcA and pcB are the program counters described
in taskSteps; okA and okB record that the take succeeded, that is that the
acquire call of that task returned PAL_STATUS_SUCCESS; crit records which
task is inside the vPortEnterCritical region. -/
structure RaceState where
  pcA : Nat
  pcB : Nat
  okA : Bool
  okB : Bool
  crit : Option Bool
  lock : LockState
  deriving DecidableEq

/-- Both tasks about to call pal_os_lock_acquire for the first time, lock
globals in their initial state. -/
def raceInit : RaceState :=
  { pcA := 0, pcB := 0, okA := false, okB := false, crit := none,
    lock := initialLockState }

/-- Atomic steps of one task (isA selects the task) running
pal_os_lock_acquire then pal_os_lock_release:
pc 0, vPortEnterCritical, enabled only when nobody holds the critical
section; pc 1, the guarded one-time check running _lock_init and clearing
first_call_flag when the flag is set; pc 2, vPortExitCritical; pc 3,
xSemaphoreTake with portMAX_DELAY, enabled only when the semaphore holds a
token, consuming it and recording success; pc 4, pal_os_lock_release;
pc 5, done. Returns the list of successor states (empty when blocked or
done). -/
def taskSteps (isA : Bool) (s : RaceState) : List RaceState :=
  let pc := if isA then s.pcA else s.pcB
  let setPc := fun (t : RaceState) (n : Nat) =>
    if isA then { t with pcA := n } else { t with pcB := n }
  match pc with
  | 0 =>
    match s.crit with
    | none => [setPc { s with crit := some isA } 1]
    | some _ => []
  | 1 =>
    if s.crit = some isA then
      let lk :=
        if s.lock.first_call_flag then
          { _lock_init s.lock with first_call_flag := false }
        else s.lock
      [setPc { s with lock := lk } 2]
    else []
  | 2 =>
    if s.crit = some isA then [setPc { s with crit := none } 3] else []
  | 3 =>
    match s.lock.xLockSemaphoreHandle with
    | some (c + 1) =>
      let s1 : RaceState :=
        { s with lock := { s.lock with xLockSemaphoreHandle := some c } }
      let s2 := if isA then { s1 with okA := true } else { s1 with okB := true }
      [setPc s2 4]
    | _ => []
  | 4 => [setPc { s with lock := (pal_os_lock_release s.lock).1 } 5]
  | _ => []

/-- All successors of a race state under any interleaving. -/
def raceStep (s : RaceState) : List RaceState :=
  taskSteps true s ++ taskSteps false s

/-- Adds to acc the states of new that are not already present. -/
def addNew (acc new : List RaceState) : List RaceState :=
  new.foldl (fun a t => if t ∈ a then a else a ++ [t]) acc

/-- Fueled breadth-first closure of a state list under raceStep. -/
def raceExplore : Nat → List RaceState → List RaceState
  | 0, acc => acc
  | n + 1, acc => raceExplore n (addNew acc (acc.map raceStep).flatten)

/-- Every state reachable from raceInit (the diameter of the system is at
most 10 steps, so fuel 12 closes the set). -/
def raceStates : List RaceState := raceExplore 12 [raceInit]

/-- States reachable from raceInit by interleaved task steps. -/
inductive RaceReachable : RaceState → Prop where
  | init : RaceReachable raceInit
  | step {s t : RaceState} : RaceReachable s → t ∈ raceStep s →
      RaceReachable t

/-- Sum of the remaining program counters, a strictly decreasing measure of
every raceStep, showing every interleaving terminates. -/
def raceMeasure (s : RaceState) : Nat := (5 - s.pcA) + (5 - s.pcB)

/-- Boolean check that every successor strictly decreases raceMeasure. -/
def raceTerminating (s : RaceState) : Bool :=
  (raceStep s).all (fun t => Nat.blt (raceMeasure t) (raceMeasure s))

/-- A state of the lock after its one-time setup has already run: flag
cleared, semaphore created and holding one token. -/
def readyLockState : LockState :=
  { xLockSemaphoreHandle := some 1, first_call_flag := false, creations := 1 }

/-- True exactly when a computation produced a defined result rather than
running into a null dereference. -/
def exceptOk {ε α : Type} : Except ε α → Bool
  | .ok _ => true
  | .error _ => false

/-- The list of events a write or read call invoked the handler with, when
the call is defined. -/
def eventsOf {ε : Type} :
    Except ε (pal_status × List pal_i2c_event × Nat) →
    Except ε (List pal_i2c_event)
  | .ok triple => .ok triple.2.1
  | .error e => .error e

/-- pal_i2c_acquire on a non-null context either succeeds from the free
state, setting the counter to 1, or fails on a busy counter, leaving it
unchanged. -/
theorem acquire_cases (c : pal_i2c_t) (g : Nat) :
    (g = 0 ∧ pal_i2c_acquire (some c) g = (.success, 1)) ∨
    (g ≠ 0 ∧ pal_i2c_acquire (some c) g = (.failure, g)) := by
  by_cases hg : g = 0
  · subst hg
    exact Or.inl ⟨rfl, rfl⟩
  · exact Or.inr ⟨hg, by simp [pal_i2c_acquire, hg]⟩

/-- Evaluation of pal_i2c_write on a non-null context with a non-null
handler, for a transfer oracle that returns r on the single call the code
makes. -/
theorem write_const (r : Int) (c : pal_i2c_t) (g d l : Nat)
    (h : c.upper_layer_event_handler = true) :
    pal_i2c_write (fun _ _ => r) g (some c) d l =
      (if g = 0 then
        if r = 0 then .ok (.success, [.success], 0)
        else .ok (.failure, [.error], 0)
      else .ok (.i2c_busy, [.busy], g)) := by
  rcases acquire_cases c g with ⟨hg, ha⟩ | ⟨hg, ha⟩
  · subst hg
    simp [pal_i2c_write, ha, pal_i2c_release, h]
  · simp [pal_i2c_write, ha, pal_i2c_release, h, hg]

/-- Evaluation of pal_i2c_read on a non-null context with a non-null
handler, for a transfer oracle that returns r on the single call the code
makes. -/
theorem read_const (r : Int) (c : pal_i2c_t) (g d l : Nat)
    (h : c.upper_layer_event_handler = true) :
    pal_i2c_read (fun _ _ => r) g (some c) d l =
      (if g = 0 then
        if r = 0 then .ok (.success, [.success], 0)
        else .ok (.failure, [.error], 0)
      else .ok (.i2c_busy, [.busy], g)) := by
  rcases acquire_cases c g with ⟨hg, ha⟩ | ⟨hg, ha⟩
  · subst hg
    simp [pal_i2c_read, ha, pal_i2c_release, h]
  · simp [pal_i2c_read, ha, pal_i2c_release, h, hg]

/-- Whenever pal_i2c_write returns a defined result, the final counter is 0
(the bus was acquired and then released) or the unchanged input counter
(the busy branch). -/
theorem write_count (f : Option Nat → I2C_TransferSeq_TypeDef → Int)
    (g : Nat) (c : Option pal_i2c_t) (d l : Nat) {st : pal_status}
    {evs : List pal_i2c_event} {g1 : Nat}
    (h : pal_i2c_write f g c d l = .ok (st, evs, g1)) : g1 = 0 ∨ g1 = g := by
  cases c with
  | none => simp [pal_i2c_write] at h
  | some ctx =>
    rcases acquire_cases ctx g with ⟨hg, ha⟩ | ⟨hg, ha⟩ <;>
      simp only [pal_i2c_write, ha] at h <;>
      split at h <;>
      (try split at h) <;> (try split at h) <;>
      simp_all [pal_i2c_release]

/-- Whenever pal_i2c_read returns a defined result, the final counter is 0
or the unchanged input counter. -/
theorem read_count (f : Option Nat → I2C_TransferSeq_TypeDef → Int)
    (g : Nat) (c : Option pal_i2c_t) (d l : Nat) {st : pal_status}
    {evs : List pal_i2c_event} {g1 : Nat}
    (h : pal_i2c_read f g c d l = .ok (st, evs, g1)) : g1 = 0 ∨ g1 = g := by
  cases c with
  | none => simp [pal_i2c_read] at h
  | some ctx =>
    rcases acquire_cases ctx g with ⟨hg, ha⟩ | ⟨hg, ha⟩ <;>
      simp only [pal_i2c_read, ha] at h <;>
      split at h <;>
      (try split at h) <;> (try split at h) <;>
      simp_all [pal_i2c_release]

/-- One PAL call keeps the g_entry_count counter at most 1. -/
theorem PalOp_run_le (f : Option Nat → I2C_TransferSeq_TypeDef → Int)
    (op : PalOp) {g g1 : Nat} (hg : g ≤ 1)
    (h : op.run f g = some g1) : g1 ≤ 1 := by
  cases op with
  | acquire ctx =>
    cases ctx with
    | none => simp [PalOp.run, pal_i2c_acquire] at h; omega
    | some c =>
      rcases acquire_cases c g with ⟨h0, ha⟩ | ⟨h0, ha⟩ <;>
        simp [PalOp.run, ha] at h <;> omega
  | release ctx =>
    cases ctx <;> simp [PalOp.run, pal_i2c_release] at h <;> omega
  | write ctx d l =>
    simp only [PalOp.run] at h
    split at h
    · rename_i out heq
      obtain ⟨st, evs, gout⟩ := out
      rcases write_count f g ctx d l heq with h0 | h0 <;>
        simp_all <;> omega
    · exact absurd h (by simp)
  | read ctx d l =>
    simp only [PalOp.run] at h
    split at h
    · rename_i out heq
      obtain ⟨st, evs, gout⟩ := out
      rcases read_count f g ctx d l heq with h0 | h0 <;>
        simp_all <;> omega
    · exact absurd h (by simp)

/-- A sequence of PAL calls keeps the counter at most 1. -/
theorem runOps_le (f : Option Nat → I2C_TransferSeq_TypeDef → Int)
    (ops : List PalOp) : ∀ g g1, g ≤ 1 →
    runOps f ops g = some g1 → g1 ≤ 1 := by
  induction ops with
  | nil => intro g g1 hg h; simp [runOps] at h; omega
  | cons op rest ih =>
    intro g g1 hg h
    simp only [runOps] at h
    split at h
    · exact absurd h (by simp)
    · rename_i gmid heq
      exact ih gmid g1 (PalOp_run_le f op hg heq) h

/-- The closure set raceStates is closed under raceStep. -/
theorem raceStates_closed :
    ∀ s ∈ raceStates, ∀ t ∈ raceStep s, t ∈ raceStates := by decide

/-- The initial race state lies in raceStates. -/
theorem raceInit_mem : raceInit ∈ raceStates := by decide

/-- Every reachable race state lies in the computed closure set. -/
theorem reach_mem {s : RaceState} (h : RaceReachable s) : s ∈ raceStates := by
  induction h with
  | init => exact raceInit_mem
  | step hr hm ih => exact raceStates_closed _ ih _ hm

/-- Checked over the whole closure set: at most one semaphore creation,
every step decreases the measure, and a stuck state is exactly the state
where both tasks are done, both with success, after exactly one creation. -/
theorem raceStates_inv : ∀ s ∈ raceStates,
    s.lock.creations ≤ 1 ∧ raceTerminating s = true ∧
    (raceStep s = [] → s.pcA = 5 ∧ s.pcB = 5 ∧ s.okA = true ∧
      s.okB = true ∧ s.lock.creations = 1) := by decide

/-- C1: for every pal_i2c_write or pal_i2c_read call on a valid context
(non-null, with a non-null event handler), the upper layer event handler is
invoked exactly once on every code path: with SUCCESS when the transfer
reports 0, with ERROR when it reports nonzero, and with BUSY when the bus
could not be acquired. The event list of the result is always a one-element
list holding the event selected by the branch taken. -/
theorem event_handler_invoked_exactly_once (r : Int) (g : Nat)
    (c : pal_i2c_t) (d l : Nat) (h : c.upper_layer_event_handler = true) :
    eventsOf (pal_i2c_write (fun _ _ => r) g (some c) d l) =
      .ok [if g ≠ 0 then .busy else if r = 0 then .success else .error] ∧
    eventsOf (pal_i2c_read (fun _ _ => r) g (some c) d l) =
      .ok [if g ≠ 0 then .busy else if r = 0 then .success else .error] := by
  rw [show pal_i2c_write (fun _ _ => r) g (some c) d l = _ from
        write_const r c g d l h,
      show pal_i2c_read (fun _ _ => r) g (some c) d l = _ from
        read_const r c g d l h]
  by_cases hg : g = 0 <;> by_cases hr : r = 0 <;> simp [hg, hr, eventsOf]

/-- Witness for C1 at a concrete input: success path of both calls. -/
theorem event_handler_invoked_exactly_once_witness :
    eventsOf (pal_i2c_write (fun _ _ => (0 : Int)) 0
        (some ctx_with_handler) 1 2) = .ok [.success] ∧
    eventsOf (pal_i2c_read (fun _ _ => (0 : Int)) 0
        (some ctx_with_handler) 1 2) = .ok [.success] := by
  simpa using event_handler_invoked_exactly_once 0 0 ctx_with_handler 1 2 rfl

/-- C2: with a valid context, a transfer result of 0 yields status SUCCESS
with a SUCCESS event, a nonzero result yields FAILURE with an ERROR event,
and the bus counter ends at 0 in both cases; when the bus is already held,
the call returns I2C_BUSY with a BUSY event and the counter is unchanged.
Stated as the complete input-output equation of pal_i2c_write and
pal_i2c_read for a transfer oracle answering r. -/
theorem write_read_functional_contract (r : Int) (g : Nat) (c : pal_i2c_t)
    (d l : Nat) (h : c.upper_layer_event_handler = true) :
    pal_i2c_write (fun _ _ => r) g (some c) d l =
      (if g = 0 then
        if r = 0 then .ok (.success, [.success], 0)
        else .ok (.failure, [.error], 0)
      else .ok (.i2c_busy, [.busy], g)) ∧
    pal_i2c_read (fun _ _ => r) g (some c) d l =
      (if g = 0 then
        if r = 0 then .ok (.success, [.success], 0)
        else .ok (.failure, [.error], 0)
      else .ok (.i2c_busy, [.busy], g)) :=
  ⟨write_const r c g d l h, read_const r c g d l h⟩

/-- Witness for C2 at a concrete input: failing transfer from the free
state. -/
theorem write_read_functional_contract_witness :
    pal_i2c_write (fun _ _ => (1 : Int)) 0 (some ctx_with_handler) 3 4 =
      .ok (.failure, [.error], 0) ∧
    pal_i2c_read (fun _ _ => (1 : Int)) 0 (some ctx_with_handler) 3 4 =
      .ok (.failure, [.error], 0) := by
  simpa using write_read_functional_contract 1 0 ctx_with_handler 3 4 rfl

/-- C3: starting from the initial value 0, the g_entry_count counter stays
at most 1 (and, being a Nat that the code only ever sets to 0 or
increments from 0, never negative) across every sequence of
pal_i2c_acquire, pal_i2c_release, pal_i2c_write and pal_i2c_read calls
that completes without a null dereference. -/
theorem g_entry_count_bounded
    (I2CSPM_Transfer : Option Nat → I2C_TransferSeq_TypeDef → Int)
    (ops : List PalOp) (g1 : Nat)
    (h : runOps I2CSPM_Transfer ops 0 = some g1) : g1 ≤ 1 :=
  runOps_le I2CSPM_Transfer ops 0 g1 (by omega) h

/-- Witness for C3 at a concrete input: a write followed by an acquire
leaves the counter at 1. -/
theorem g_entry_count_bounded_witness :
    runOps (fun _ _ => (0 : Int))
      [PalOp.write (some ctx_with_handler) 1 2,
       PalOp.acquire (some ctx_with_handler)] 0 = some 1 ∧ (1 : Nat) ≤ 1 :=
  ⟨rfl,
   g_entry_count_bounded (fun _ _ => (0 : Int))
     [PalOp.write (some ctx_with_handler) 1 2,
      PalOp.acquire (some ctx_with_handler)] 1 rfl⟩

/-- C4: pal_i2c_acquire returns PAL_STATUS_FAILURE for a null context at
every counter value, free bus included, leaving the counter unchanged; it
returns PAL_STATUS_FAILURE for a counter that is already nonzero (never
recursive, whoever the caller is), again leaving the counter unchanged;
and otherwise it sets the counter to 1 and returns PAL_STATUS_SUCCESS; as
a total function it never blocks. The counter g of the null-context
conjunct ranges over all values and is independent of the nonzero gb of
the busy conjunct. -/
theorem pal_i2c_acquire_contract (g gb : Nat) (c : pal_i2c_t)
    (h : gb ≠ 0) :
    pal_i2c_acquire none g = (.failure, g) ∧
    pal_i2c_acquire (some c) gb = (.failure, gb) ∧
    pal_i2c_acquire (some c) 0 = (.success, 1) :=
  ⟨rfl, by simp [pal_i2c_acquire, h], rfl⟩

/-- Witness for C4 at a concrete input: the null context with the bus
free, and a non-null context at the held counter value 1. -/
theorem pal_i2c_acquire_contract_witness :
    pal_i2c_acquire none 0 = (.failure, 0) ∧
    pal_i2c_acquire (some optiga_pal_i2c_context_0) 1 = (.failure, 1) ∧
    pal_i2c_acquire (some optiga_pal_i2c_context_0) 0 = (.success, 1) :=
  pal_i2c_acquire_contract 0 1 optiga_pal_i2c_context_0 (by decide)

/-- C5: pal_i2c_release is a no-op for a null context and, for any
non-null context and any current counter value, unconditionally stores 0,
with no owner check. -/
theorem pal_i2c_release_contract (g : Nat) (c : pal_i2c_t) :
    pal_i2c_release none g = g ∧ pal_i2c_release (some c) g = 0 :=
  ⟨rfl, rfl⟩

/-- C6: a null context makes pal_i2c_write and pal_i2c_read dereference it
at the very first statement, fetching the event handler before the acquire
check does any validation, so the null-dereference branch is reached for
every state and oracle; the call is defined exactly under the precondition
that the context and its handler are non-null, and a non-null context with
a null handler still runs into the handler dereference in every branch. -/
theorem null_context_dereference (g : Nat) (r : Int) (d l : Nat)
    (c cbad : pal_i2c_t) (h : c.upper_layer_event_handler = true)
    (hbad : cbad.upper_layer_event_handler = false) :
    pal_i2c_write (fun _ _ => r) g none d l = .error .ctxNull ∧
    pal_i2c_read (fun _ _ => r) g none d l = .error .ctxNull ∧
    exceptOk (pal_i2c_write (fun _ _ => r) g (some c) d l) = true ∧
    exceptOk (pal_i2c_read (fun _ _ => r) g (some c) d l) = true ∧
    pal_i2c_write (fun _ _ => r) g (some cbad) d l = .error .handlerNull ∧
    pal_i2c_read (fun _ _ => r) g (some cbad) d l = .error .handlerNull := by
  refine ⟨rfl, rfl, ?_, ?_, ?_, ?_⟩
  · rw [show pal_i2c_write (fun _ _ => r) g (some c) d l = _ from
        write_const r c g d l h]
    by_cases hg : g = 0 <;> by_cases hr : r = 0 <;> simp [hg, hr, exceptOk]
  · rw [show pal_i2c_read (fun _ _ => r) g (some c) d l = _ from
        read_const r c g d l h]
    by_cases hg : g = 0 <;> by_cases hr : r = 0 <;> simp [hg, hr, exceptOk]
  · rcases acquire_cases cbad g with ⟨hg, ha⟩ | ⟨hg, ha⟩
    · subst hg
      simp [pal_i2c_write, ha, hbad]
    · simp [pal_i2c_write, ha, hbad]
  · rcases acquire_cases cbad g with ⟨hg, ha⟩ | ⟨hg, ha⟩
    · subst hg
      simp [pal_i2c_read, ha, hbad]
    · simp [pal_i2c_read, ha, hbad]

/-- Witness for C6 at a concrete input, using the handler-equipped test
context and the configuration instance whose handler is NULL. -/
theorem null_context_dereference_witness :
    pal_i2c_write (fun _ _ => (0 : Int)) 0 none 1 2 = .error .ctxNull ∧
    pal_i2c_read (fun _ _ => (0 : Int)) 0 none 1 2 = .error .ctxNull ∧
    exceptOk (pal_i2c_write (fun _ _ => (0 : Int)) 0
      (some ctx_with_handler) 1 2) = true ∧
    exceptOk (pal_i2c_read (fun _ _ => (0 : Int)) 0
      (some ctx_with_handler) 1 2) = true ∧
    pal_i2c_write (fun _ _ => (0 : Int)) 0
      (some optiga_pal_i2c_context_0) 1 2 = .error .handlerNull ∧
    pal_i2c_read (fun _ _ => (0 : Int)) 0
      (some optiga_pal_i2c_context_0) 1 2 = .error .handlerNull :=
  null_context_dereference 0 0 1 2 ctx_with_handler
    optiga_pal_i2c_context_0 rfl rfl

/-- C7 counterexample: on the very first pal_os_lock_acquire call, a
failing take still returns PAL_STATUS_FAILURE but the lock state is
changed, because the lazy one-time setup (semaphore creation, initial
give, flag clear) has already happened before the take. -/
theorem lock_acquire_first_call_side_effect :
    (pal_os_lock_acquire initialLockState false).1 = .failure ∧
    (pal_os_lock_acquire initialLockState false).2 ≠ initialLockState := by
  decide

/-- C7 as amended: pal_os_lock_acquire returns PAL_STATUS_FAILURE exactly
when the take primitive fails, and on any call after the first (one-time
flag already cleared) such a failing call leaves the lock state unchanged;
on the very first call the lazy one-time setup still takes place. -/
theorem lock_acquire_failure_contract (s s0 : LockState) (t : Bool)
    (h : s0.first_call_flag = false) :
    ((pal_os_lock_acquire s t).1 = .failure ↔ t = false) ∧
    pal_os_lock_acquire s0 false = (.failure, s0) := by
  constructor
  · cases t <;> simp [pal_os_lock_acquire]
  · simp [pal_os_lock_acquire, h]

/-- Witness for C7 at a concrete input: the ready state after setup. -/
theorem lock_acquire_failure_contract_witness :
    ((pal_os_lock_acquire initialLockState true).1 = .failure ↔
      true = false) ∧
    pal_os_lock_acquire readyLockState false = (.failure, readyLockState) :=
  lock_acquire_failure_contract initialLockState readyLockState true rfl

/-- C8: over every interleaving of two tasks racing through their
first pal_os_lock_acquire (each paired with the pal_os_lock_release that
lets the waiter through), any reachable state has seen at most one
xSemaphoreCreateBinary call, every step strictly decreases the termination
measure (so every interleaving is finite), and every stuck state is the
state where both tasks have completed with PAL_STATUS_SUCCESS after
exactly one semaphore creation: the critical section makes the one-time
check safe and both racing calls eventually succeed, one immediately and
one after waiting for the release. -/
theorem lock_race_init_once_both_succeed (s : RaceState)
    (h : RaceReachable s) :
    s.lock.creations ≤ 1 ∧ raceTerminating s = true ∧
    (raceStep s = [] → s.pcA = 5 ∧ s.pcB = 5 ∧ s.okA = true ∧
      s.okB = true ∧ s.lock.creations = 1) :=
  raceStates_inv s (reach_mem h)

/-- Witness for C8 at a concrete input: the initial race state. -/
theorem lock_race_init_once_both_succeed_witness :
    raceInit.lock.creations ≤ 1 ∧ raceTerminating raceInit = true ∧
    (raceStep raceInit = [] → raceInit.pcA = 5 ∧ raceInit.pcB = 5 ∧
      raceInit.okA = true ∧ raceInit.okB = true ∧
      raceInit.lock.creations = 1) :=
  lock_race_init_once_both_succeed raceInit RaceReachable.init

/-- C9: for every non-null context, pal_i2c_init returns
PAL_STATUS_FAILURE exactly when the sl_i2cspm_sensor handle inside the
hardware configuration is NULL, and PAL_STATUS_SUCCESS exactly otherwise;
the function reads the context and touches nothing else. -/
theorem pal_i2c_init_contract (c : pal_i2c_t) :
    (pal_i2c_init (some c) = .ok .failure ↔
      c.p_i2c_hw_config.sl_i2cspm_sensor = none) ∧
    (pal_i2c_init (some c) = .ok .success ↔
      c.p_i2c_hw_config.sl_i2cspm_sensor ≠ none) := by
  cases hs : c.p_i2c_hw_config.sl_i2cspm_sensor <;>
    simp [pal_i2c_init, hs]

/-- C10: before any pal_os_lock_acquire has run, the global semaphore
handle is still the null value, and pal_os_lock_release nevertheless
passes it straight to xSemaphoreGive, performing no one-time-setup check
of its own and leaving every lock global unchanged. -/
theorem lock_release_before_acquire_gives_null :
    initialLockState.xLockSemaphoreHandle = none ∧
    (pal_os_lock_release initialLockState).2 = none ∧
    (pal_os_lock_release initialLockState).1 = initialLockState := by
  decide

end TrustX
